import Mathlib

/-!
Shallow embedding of the client-side authentication and session layer of the
AI chat bot frontend: the zustand auth store (`frontend/src/stores/authStore.js`
together with the fetch-based `login` variant shipped in the repository), the
axios wrapper with its request and response interceptors
(`frontend/src/services/api.js`), and the chat resource client body builder.

JavaScript objects are embedded as Lean structures whose `Option` fields mark
absent (`undefined` / `null`) values; network interaction is abstracted as
explicit environment values describing the outcome of each HTTP call.
-/

namespace AIChatBot

/-- JavaScript truthiness of an optional string: `undefined`, `null` and the
empty string are falsy, every other string is truthy. -/
def jsTruthy : Option String → Bool
  | none => false
  | some s => s ≠ ""

/-- JavaScript `a || b` on strings: the empty string falls back to `b`. -/
def jsOr (a b : String) : String := if a = "" then b else a

/-- JavaScript `a || b` where `a` is an optional string: an absent or empty
value falls back to `b`. -/
def jsOrElse (a : Option String) (b : String) : String :=
  match a with
  | none => b
  | some s => jsOr s b

/-- JavaScript template interpolation of a possibly-undefined string: template
literals render an absent value as the text `undefined`. -/
def jsInterp : Option String → String
  | none => "undefined"
  | some s => s

/-- A user profile object as the store handles it; `none` marks a field that is
absent from the JS object (further profile fields are opaque to the store and
are represented by these two, which the spec and the store read explicitly). -/
structure User where
  username : Option String := none
  email : Option String := none
deriving Repr, DecidableEq

/-- The session slice of the auth store: `user`, `token`, `isAuthenticated`,
`isLoading`, `error`. -/
structure SessionState where
  user : Option User
  token : Option String
  isAuthenticated : Bool
  isLoading : Bool
  error : Option String
deriving Repr, DecidableEq

/-- The state the store is created with at application start. -/
def initialSession : SessionState :=
  { user := none, token := none, isAuthenticated := false, isLoading := false,
    error := none }

/-- The slice of the session written to web storage by the persist middleware:
`partialize: (state) => (\x7b token: state.token \x7d)`. -/
structure PersistedSlice where
  token : Option String
deriving Repr, DecidableEq

/-- `partialize` from the persist configuration of `authStore.js`: restricts the
persisted value to the `token` field. -/
def partialize (s : SessionState) : PersistedSlice := { token := s.token }

/-- Store state reconstructed from a persisted slice on page load: the persist
middleware merges the stored `token` into the initial state; `user` and
`isAuthenticated` are not stored, so they take their initial values. -/
def rehydrateSlice (p : PersistedSlice) : SessionState :=
  { initialSession with token := p.token }

/-- Contents of the `auth-storage` web-storage entry as readers see it:
`malformed` is a present value that `JSON.parse` rejects or that lacks the
expected `\x7b state: \x7b token \x7d \x7d` shape; `parsed tok` is a well-formed
persisted store whose `state.token` is `tok`.  The entry itself may be absent,
which callers model with `Option`. -/
inductive AuthStorage where
  | malformed
  | parsed (token : Option String)
deriving Repr, DecidableEq

/-- Rehydration of the store from the raw `auth-storage` entry: a well-formed
entry contributes its token, anything else leaves the initial state. -/
def rehydrate (storage : Option AuthStorage) : SessionState :=
  match storage with
  | some (.parsed tok) => { initialSession with token := tok }
  | _ => initialSession

/-- Request interceptor of the axios wrapper (`services/api.js`): reads the raw
`auth-storage` entry, parses it, and when `parsed.state?.token` is truthy sets
`Authorization: Bearer <token>` on the outgoing request.  Returns the
Authorization header of the outgoing request (`none` when it is not set). -/
def requestAuthHeader (storage : Option AuthStorage) : Option String :=
  match storage with
  | none => none
  | some .malformed => none
  | some (.parsed tok) =>
      match tok with
      | none => none
      | some t => if t = "" then none else some ("Bearer " ++ t)

/-- The persisted token, when one exists: a well-formed `auth-storage` entry
whose `state.token` is a non-empty string (an empty string is no token). -/
def persistedToken : Option AuthStorage → Option String
  | some (.parsed (some t)) => if t = "" then none else some t
  | _ => none

/-- The pieces of browser state the response interceptor touches: the
`auth-storage` entry and `window.location.href`. -/
structure BrowserState where
  authStorage : Option AuthStorage
  location : String
deriving Repr, DecidableEq

/-- An axios error as the response interceptor reads it; `status` is
`error.response?.status` (`none` when the request failed without a response). -/
structure HttpError where
  status : Option Nat
deriving Repr, DecidableEq

/-- What the response interceptor hands back for a failed request: `rejected e`
propagates the error to the caller; `retried` would be re-issuing the request,
which the interceptor never produces. -/
inductive InterceptorOutcome where
  | rejected (e : HttpError)
  | retried
deriving Repr, DecidableEq

/-- Error path of the response interceptor in `services/api.js`: on status 401
it removes the `auth-storage` entry and assigns `/login` to
`window.location.href`; in every case it returns the rejected error, never a
retried request. -/
def handleFailedResponse (e : HttpError) (b : BrowserState) :
    BrowserState × InterceptorOutcome :=
  if e.status = some 401 then
    ({ authStorage := none, location := "/login" }, .rejected e)
  else
    (b, .rejected e)

/-- The operations of the resource clients in `services/api.js` (`chatAPI`,
`fileAPI`, `pluginAPI`, `userAPI`, `healthAPI`), all issued through the shared
axios instance `api`. -/
inductive ResourceOp where
  | sendMessage
  | getConversations
  | getConversation
  | deleteConversation
  | exportConversation
  | uploadFile
  | getKnowledgeBase
  | deleteDocument
  | getPlugins
  | executePlugin
  | getProfile
  | putProfile
  | putPassword
  | healthCheck
deriving Repr, DecidableEq

/-- Error path of a request issued by any resource client: every client method
calls the shared `api` instance, so the same response interceptor handles the
failure once, whichever operation issued the request. -/
def resourceOpFailure (_op : ResourceOp) (e : HttpError) (b : BrowserState) :
    BrowserState × InterceptorOutcome :=
  handleFailedResponse e b

/-- Full client state around the zustand store: the in-memory session, the
axios default Authorization header (`api.defaults.headers.common`), and the
persisted `auth-storage` entry maintained by the persist middleware. -/
structure ClientState where
  session : SessionState
  apiAuthDefault : Option String
  storage : Option AuthStorage
deriving Repr, DecidableEq

/-- A `set(...)` on the persisted store: updates the session and rewrites the
storage entry with the partialized state. -/
def setSession (c : ClientState) (s : SessionState) : ClientState :=
  { c with session := s, storage := some (.parsed (partialize s).token) }

/-- `logout()` from `authStore.js`: deletes the default Authorization header and
resets every session field to its initial value. -/
def logout (c : ClientState) : ClientState :=
  setSession { c with apiAuthDefault := none } initialSession

/-- Result of a call through the axios wrapper as the store observes it:
`success data` is a 2xx response with parsed body `data`; `failure detail` is a
thrown error whose `error.response?.data?.detail` is `detail` (`none` covers
network errors and bodies without a detail field). -/
inductive ApiOutcome (α : Type) where
  | success (data : α)
  | failure (detail : Option String)
deriving Repr, DecidableEq

/-- `initializeAuth()` from `authStore.js`: when the stored token is truthy,
sets the default Authorization header and fetches `/users/profile` to validate
it; on success stores the fetched user and marks the session authenticated; on
any failure calls `logout()`; with no token it does nothing. -/
def initializeAuth (profile : ApiOutcome User) (c : ClientState) : ClientState :=
  if jsTruthy c.session.token then
    let c1 := { c with
      apiAuthDefault := some ("Bearer " ++ jsInterp c.session.token) }
    match profile with
    | .success u =>
        setSession c1 { c1.session with user := some u, isAuthenticated := true }
    | .failure _ => logout c1
  else c

/-- A partial user object returned by `PUT /users/profile`; `none` marks a field
absent from the response body. -/
structure UserPatch where
  username : Option String := none
  email : Option String := none
deriving Repr, DecidableEq

/-- JavaScript object spread `\x7b ...current, ...patch \x7d` on user records: a
field present in the patch wins, a `null` current user spreads to the empty
object. -/
def mergeUser (current : Option User) (patch : UserPatch) : User :=
  let cur := current.getD {}
  { username := match patch.username with | some v => some v | none => cur.username,
    email := match patch.email with | some v => some v | none => cur.email }

/-- `updateProfile(profileData)` from `authStore.js`: on success replaces the
user with the spread-merge of the current user and the response body; on
failure sets `error` to the detail or a default.  It never throws: the returned
Bool is the `success` flag of the result object. -/
def updateProfile (resp : ApiOutcome UserPatch) (c : ClientState) :
    ClientState × Bool :=
  match resp with
  | .success data =>
      (setSession c { c.session with user := some (mergeUser c.session.user data) },
        true)
  | .failure detail =>
      (setSession c
        { c.session with error := some (jsOrElse detail "Profile update failed") },
        false)

/-- `changePassword(passwordData)` from `authStore.js`: on success returns
without touching the state; on failure sets `error` to the detail or a default.
It never throws: the returned Bool is the `success` flag of the result. -/
def changePassword (resp : ApiOutcome Unit) (c : ClientState) :
    ClientState × Bool :=
  match resp with
  | .success _ => (c, true)
  | .failure detail =>
      (setSession c
        { c.session with error := some (jsOrElse detail "Password change failed") },
        false)

/-- A fetch call outcome at the granularity the store reads it: `netError msg`
is a rejected fetch whose runtime error message is `msg`; `response ok body` is
a completed HTTP response with `response.ok = ok` and JSON body `body`. -/
inductive FetchResult (β : Type) where
  | netError (msg : String)
  | response (ok : Bool) (body : β)
deriving Repr, DecidableEq

/-- JSON body of `POST /auth/login` at the granularity `login` reads it. -/
structure LoginBody where
  access_token : Option String := none
  detail : Option String := none
deriving Repr, DecidableEq

/-- The network environment a `login` call runs in: the outcome of the
`/auth/login` POST, and the outcome of the `/users/profile` GET as a function
of the Authorization header value the store sends with it. -/
structure LoginEnv where
  authResult : FetchResult LoginBody
  profileFetch : String → FetchResult User

/-- How a `login` call returns to its caller: normally, or by throwing an error
carrying `message`. -/
inductive LoginOutcome where
  | ok
  | threw (message : String)
deriving Repr, DecidableEq

/-- The fetch-based `login(username, password)` of the auth store: sets
loading, POSTs the credentials, and on a non-ok response throws the detail (or
a default); on an ok response it extracts `access_token`, GETs the profile with
`Authorization: Bearer <token>`, takes the profile body when that response is
ok and the minimal record `\x7b username \x7d` otherwise, and stores the
authenticated session.  Any rejected fetch lands in the catch block, which
records the error message (the thrown detail is non-empty, so the catch-side
`error.message || ...` fallback collapses onto it) and rethrows. -/
def login (env : LoginEnv) (username _password : String) (s : SessionState) :
    SessionState × LoginOutcome :=
  let s1 : SessionState := { s with isLoading := true, error := none }
  match env.authResult with
  | .netError msg =>
      let m := jsOr msg "Login failed"
      ({ s1 with isLoading := false, error := some m }, .threw m)
  | .response ok body =>
      if ok then
        match env.profileFetch ("Bearer " ++ jsInterp body.access_token) with
        | .netError msg =>
            let m := jsOr msg "Login failed"
            ({ s1 with isLoading := false, error := some m }, .threw m)
        | .response pok profile =>
            let user : User := if pok then profile else { username := some username }
            ({ s1 with
                user := some user, token := body.access_token,
                isAuthenticated := true, isLoading := false, error := none }, .ok)
      else
        let m := jsOrElse body.detail "Login failed"
        ({ s1 with isLoading := false, error := some m }, .threw m)

/-- Multipart form body built by `chatAPI.sendMessage(message, conversationId)`
in `services/api.js`: always appends `message`; appends `conversation_id` only
when `conversationId` is truthy (its declared default is `null`). -/
def sendMessageBody (message : String) (conversationId : Option String) :
    List (String × String) :=
  [("message", message)] ++
    (if jsTruthy conversationId then [("conversation_id", jsInterp conversationId)]
     else [])

/-- Concrete environment: the auth endpoint returns a token, the profile fetch
fails at the network level (the fetch promise rejects). -/
def loginEnvProfileDown : LoginEnv :=
  { authResult := .response true { access_token := some "t1", detail := none },
    profileFetch := fun _ => .netError "Failed to fetch" }

/-- Concrete environment: the auth endpoint returns a token, the profile fetch
completes with a non-ok response. -/
def loginEnvProfileNotOk : LoginEnv :=
  { authResult := .response true { access_token := some "t1", detail := none },
    profileFetch := fun _ => .response false { username := none, email := none } }

/-- Concrete environment: the auth endpoint answers non-2xx with a detail. -/
def loginEnvBadCreds : LoginEnv :=
  { authResult := .response false
      { access_token := none, detail := some "Invalid credentials" },
    profileFetch := fun _ => .netError "" }

theorem jsOr_ne_empty (a b : String) (hb : b ≠ "") : jsOr a b ≠ "" := by
  unfold jsOr
  split
  · exact hb
  · assumption

/-- Claim C1 (counterexample): with the authentication endpoint returning
status 200 and token `t1` but the profile fetch failing at the network level,
the session does not end authenticated with the minimal user record, contrary
to the claim; instead the whole login fails: the error message is recorded and
the call throws, leaving the session unauthenticated. -/
theorem c1_profile_network_failure_refutes :
    (login loginEnvProfileDown "alice" "pw" initialSession).1 ≠
      { user := some { username := some "alice" }, token := some "t1",
        isAuthenticated := true, isLoading := false, error := none } ∧
    (login loginEnvProfileDown "alice" "pw" initialSession).1 =
      { user := none, token := none, isAuthenticated := false, isLoading := false,
        error := some "Failed to fetch" } ∧
    (login loginEnvProfileDown "alice" "pw" initialSession).2 =
      .threw "Failed to fetch" := by
  decide

/-- Claim C1 (amended): for every login where the authentication endpoint
returns an ok response carrying a token and the profile fetch with that token
completes with a response, the session ends with that token,
isAuthenticated = true, isLoading = false and no error; the user is the fetched
profile when the profile response is ok, and the minimal record containing only
the submitted username when the profile response is not ok.  (A network-level
profile fetch failure instead fails the whole login.) -/
theorem c1_login_success_profile (env : LoginEnv) (username password : String)
    (s : SessionState) (body : LoginBody) (tok : String) (pok : Bool)
    (profile : User)
    (hauth : env.authResult = .response true body)
    (htok : body.access_token = some tok)
    (hprof : env.profileFetch ("Bearer " ++ tok) = .response pok profile) :
    login env username password s =
      ({ user := some (if pok then profile else { username := some username }),
         token := some tok, isAuthenticated := true, isLoading := false,
         error := none }, .ok) := by
  simp [login, hauth, htok, jsInterp, hprof]

/-- Claim C1 witness: a concrete successful login whose profile fetch returns a
non-ok response falls back to the minimal user record. -/
theorem c1_login_success_profile_witness :
    login loginEnvProfileNotOk "alice" "pw" initialSession =
      ({ user := some { username := some "alice" }, token := some "t1",
         isAuthenticated := true, isLoading := false, error := none }, .ok) :=
  c1_login_success_profile loginEnvProfileNotOk "alice" "pw" initialSession
    { access_token := some "t1", detail := none } "t1" false
    { username := none, email := none } rfl rfl rfl

/-- Claim C2: every failed login from an unauthenticated session leaves the
session unauthenticated with the token unset, ends with isLoading = false,
records a non-empty error message equal to the thrown message, and when the
failure is a non-2xx response of the authentication endpoint the message is the
server-provided detail or the default `Login failed`. -/
theorem c2_login_failure (env : LoginEnv) (username password : String)
    (s st : SessionState) (m : String)
    (htok : s.token = none) (hna : s.isAuthenticated = false)
    (h : login env username password s = (st, .threw m)) :
    st.token = none ∧ st.isAuthenticated = false ∧ st.isLoading = false ∧
    st.error = some m ∧ m ≠ "" ∧
    ∀ body, env.authResult = .response false body →
      m = jsOrElse body.detail "Login failed" := by
  cases hA : env.authResult with
  | netError msg =>
      have hl : login env username password s =
          ({ s with isLoading := false, error := some (jsOr msg "Login failed") },
            .threw (jsOr msg "Login failed")) := by
        simp [login, hA]
      rw [hl] at h
      obtain ⟨hst, hm⟩ := Prod.mk.injEq .. |>.mp h
      injection hm with hm
      subst hst hm
      refine ⟨htok, hna, rfl, rfl, jsOr_ne_empty _ _ (by decide), ?_⟩
      intro body hbody
      exact FetchResult.noConfusion hbody
  | response ok body =>
      cases ok with
      | true =>
          cases hP : env.profileFetch ("Bearer " ++ jsInterp body.access_token) with
          | netError msg =>
              have hl : login env username password s =
                  ({ s with
                      isLoading := false,
                      error := some (jsOr msg "Login failed") },
                    .threw (jsOr msg "Login failed")) := by
                simp [login, hA, hP]
              rw [hl] at h
              obtain ⟨hst, hm⟩ := Prod.mk.injEq .. |>.mp h
              injection hm with hm
              subst hst hm
              refine ⟨htok, hna, rfl, rfl, jsOr_ne_empty _ _ (by decide), ?_⟩
              intro body2 hbody
              injection hbody with hok _
              exact Bool.noConfusion hok
          | response pok profile =>
              have hl : (login env username password s).2 = .ok := by
                simp [login, hA, hP]
              rw [h] at hl
              exact LoginOutcome.noConfusion hl
      | false =>
          have hl : login env username password s =
              ({ s with
                  isLoading := false,
                  error := some (jsOrElse body.detail "Login failed") },
                .threw (jsOrElse body.detail "Login failed")) := by
            simp [login, hA]
          rw [hl] at h
          obtain ⟨hst, hm⟩ := Prod.mk.injEq .. |>.mp h
          injection hm with hm
          subst hst hm
          have hne : jsOrElse body.detail "Login failed" ≠ "" := by
            unfold jsOrElse
            cases body.detail
            · decide
            · exact jsOr_ne_empty _ _ (by decide)
          refine ⟨htok, hna, rfl, rfl, hne, ?_⟩
          intro body2 hbody
          injection hbody with hb1 hb2
          subst hb2
          rfl

/-- Claim C2 witness: a concrete login rejected with status 400 and detail
`Invalid credentials` leaves the session unauthenticated with that error. -/
theorem c2_login_failure_witness :
    ({ user := none, token := none, isAuthenticated := false, isLoading := false,
       error := some "Invalid credentials" } : SessionState).token = none ∧
    ({ user := none, token := none, isAuthenticated := false, isLoading := false,
       error := some "Invalid credentials" } : SessionState).isAuthenticated
        = false ∧
    ({ user := none, token := none, isAuthenticated := false, isLoading := false,
       error := some "Invalid credentials" } : SessionState).isLoading = false ∧
    ({ user := none, token := none, isAuthenticated := false, isLoading := false,
       error := some "Invalid credentials" } : SessionState).error
        = some "Invalid credentials" ∧
    "Invalid credentials" ≠ "" ∧
    ∀ body, loginEnvBadCreds.authResult = .response false body →
      "Invalid credentials" = jsOrElse body.detail "Login failed" :=
  c2_login_failure loginEnvBadCreds "alice" "pw" initialSession
    { user := none, token := none, isAuthenticated := false, isLoading := false,
      error := some "Invalid credentials" }
    "Invalid credentials" rfl rfl (by decide)

/-- Claim C3: from any client state holding a (truthy) stored token, running
`initializeAuth` while the profile endpoint rejects the token yields exactly
the client state produced by an explicit `logout()`: the initial empty session,
no default Authorization header, and a persisted slice with no token. -/
theorem c3_init_auth_rejected_token (d : Option String) (c : ClientState)
    (h : jsTruthy c.session.token = true) :
    initializeAuth (.failure d) c = logout c := by
  simp only [initializeAuth, h, if_true]
  rfl

/-- Claim C3 witness: `initializeAuth` on the state rehydrated from a stored
token `t9`, with the profile endpoint rejecting, equals an explicit logout. -/
theorem c3_init_auth_rejected_token_witness :
    initializeAuth (.failure (some "Could not validate credentials"))
        { session := rehydrate (some (.parsed (some "t9"))),
          apiAuthDefault := none, storage := some (.parsed (some "t9")) } =
      logout
        { session := rehydrate (some (.parsed (some "t9"))),
          apiAuthDefault := none, storage := some (.parsed (some "t9")) } :=
  c3_init_auth_rejected_token (some "Could not validate credentials") _ (by decide)

/-- Claim C4: for every response with status 401, whichever resource client
issued the request, the interceptor clears the persisted `auth-storage` entry,
navigates to `/login` (after which rehydration yields the unauthenticated
initial session), and rejects the error exactly once, never retrying. -/
theorem c4_http401_forced_logout (op : ResourceOp) (e : HttpError)
    (b : BrowserState) (h : e.status = some 401) :
    resourceOpFailure op e b =
      ({ authStorage := none, location := "/login" }, .rejected e) ∧
    rehydrate (resourceOpFailure op e b).1.authStorage = initialSession ∧
    (resourceOpFailure op e b).2 ≠ .retried := by
  have h1 : resourceOpFailure op e b =
      ({ authStorage := none, location := "/login" }, .rejected e) := by
    simp [resourceOpFailure, handleFailedResponse, h]
  refine ⟨h1, ?_, ?_⟩ <;> rw [h1] <;> simp [rehydrate]

/-- Claim C4 witness: a concrete 401 on a chat request clears storage,
navigates to `/login`, and is rejected once. -/
theorem c4_http401_forced_logout_witness :
    resourceOpFailure .sendMessage { status := some 401 }
        { authStorage := some (.parsed (some "t1")), location := "/chat" } =
      ({ authStorage := none, location := "/login" },
        .rejected { status := some 401 }) ∧
    rehydrate (resourceOpFailure .sendMessage { status := some 401 }
        { authStorage := some (.parsed (some "t1")),
          location := "/chat" }).1.authStorage = initialSession ∧
    (resourceOpFailure .sendMessage { status := some 401 }
        { authStorage := some (.parsed (some "t1")),
          location := "/chat" }).2 ≠ .retried :=
  c4_http401_forced_logout .sendMessage { status := some 401 }
    { authStorage := some (.parsed (some "t1")), location := "/chat" } rfl

/-- Claim C5: when a persisted token exists the request interceptor sets
`Authorization: Bearer <token>`, and when none is present (absent or malformed
entry, or a null or empty token) the Authorization header is omitted, never
sent empty. -/
theorem c5_request_auth_header (storage : Option AuthStorage) :
    (∀ t, persistedToken storage = some t →
        requestAuthHeader storage = some ("Bearer " ++ t)) ∧
    (persistedToken storage = none → requestAuthHeader storage = none) := by
  rcases storage with _ | st
  · simp [persistedToken, requestAuthHeader]
  · rcases st with _ | tok
    · simp [persistedToken, requestAuthHeader]
    · rcases tok with _ | t
      · simp [persistedToken, requestAuthHeader]
      · by_cases ht : t = "" <;>
          simp [persistedToken, requestAuthHeader, ht]

/-- Claim C5 witness: a stored token `t1` yields a bearer header, an absent
entry yields no header. -/
theorem c5_request_auth_header_witness :
    requestAuthHeader (some (.parsed (some "t1"))) = some ("Bearer " ++ "t1") ∧
    requestAuthHeader none = none :=
  ⟨(c5_request_auth_header (some (.parsed (some "t1")))).1 "t1" (by decide),
    (c5_request_auth_header none).2 (by decide)⟩

/-- Claim C6: `logout()` from any client state yields the identical reset
state: the initial empty session, no default Authorization header, a persisted
slice holding no token; applying logout twice yields the same state as once. -/
theorem c6_logout_idempotent (c : ClientState) :
    logout c =
      { session := initialSession, apiAuthDefault := none,
        storage := some (.parsed none) } ∧
    logout (logout c) = logout c :=
  ⟨rfl, rfl⟩

/-- Claim C7: the persisted slice of any session state is exactly its token
field, so two sessions with the same token persist identically, and the state
rehydrated from the slice carries no user, is unauthenticated, not loading and
error-free: user and isAuthenticated are never read back from storage. -/
theorem c7_persist_token_only (s s2 : SessionState) (h : s.token = s2.token) :
    partialize s = partialize s2 ∧
    partialize s = { token := s.token } ∧
    rehydrateSlice (partialize s) =
      { user := none, token := s.token, isAuthenticated := false,
        isLoading := false, error := none } := by
  refine ⟨?_, rfl, rfl⟩
  simp [partialize, h]

/-- Claim C7 witness: an authenticated and an empty session with the same token
persist to the same slice, and rehydration restores only the token. -/
theorem c7_persist_token_only_witness :
    partialize
        { user := some { username := some "alice" }, token := some "t1",
          isAuthenticated := true, isLoading := false, error := some "boom" } =
      partialize
        { user := none, token := some "t1", isAuthenticated := false,
          isLoading := true, error := none } ∧
    partialize
        { user := some { username := some "alice" }, token := some "t1",
          isAuthenticated := true, isLoading := false, error := some "boom" } =
      { token := some "t1" } ∧
    rehydrateSlice (partialize
        { user := some { username := some "alice" }, token := some "t1",
          isAuthenticated := true, isLoading := false, error := some "boom" }) =
      { user := none, token := some "t1", isAuthenticated := false,
        isLoading := false, error := none } :=
  c7_persist_token_only
    { user := some { username := some "alice" }, token := some "t1",
      isAuthenticated := true, isLoading := false, error := some "boom" }
    { user := none, token := some "t1", isAuthenticated := false,
      isLoading := true, error := none } rfl

/-- Claim C8: a successful `updateProfile` replaces the user with the shallow
merge of the current user and the returned fields, preserving every field the
response omits (username is kept when only email is returned) and leaving
token, isAuthenticated, isLoading and error untouched; a failed `updateProfile`
sets only the error field and returns a failure flag instead of throwing. -/
theorem c8_update_profile_merge (c : ClientState) (p : UserPatch)
    (d : Option String) :
    (updateProfile (.success p) c).1.session.user =
      some (mergeUser c.session.user p) ∧
    (p.username = none →
      (mergeUser c.session.user p).username =
        (c.session.user.getD {}).username) ∧
    (p.email = none →
      (mergeUser c.session.user p).email = (c.session.user.getD {}).email) ∧
    (updateProfile (.success p) c).1.session.token = c.session.token ∧
    (updateProfile (.success p) c).1.session.isAuthenticated =
      c.session.isAuthenticated ∧
    (updateProfile (.success p) c).1.session.isLoading = c.session.isLoading ∧
    (updateProfile (.success p) c).1.session.error = c.session.error ∧
    (updateProfile (.failure d) c).1.session =
      { c.session with error := some (jsOrElse d "Profile update failed") } ∧
    (updateProfile (.failure d) c).2 = false := by
  refine ⟨rfl, ?_, ?_, rfl, rfl, rfl, rfl, rfl, rfl⟩
  · intro h
    simp [mergeUser, h]
  · intro h
    simp [mergeUser, h]

/-- Claim C8 witness: a response carrying only a new email address updates the
email and preserves the existing username. -/
theorem c8_update_profile_merge_witness :
    (mergeUser
        (some { username := some "alice", email := some "old@x.com" })
        { username := none, email := some "new@x.com" }).username =
      ((some { username := some "alice", email := some "old@x.com" }
          : Option User).getD {}).username :=
  (c8_update_profile_merge
    { session :=
        { user := some { username := some "alice", email := some "old@x.com" },
          token := some "t1", isAuthenticated := true, isLoading := false,
          error := none },
      apiAuthDefault := some "Bearer t1",
      storage := some (.parsed (some "t1")) }
    { username := none, email := some "new@x.com" } none).2.1 rfl

/-- Claim C9: a successful `changePassword` performs no session-state mutation
beyond at most clearing error (in fact it leaves the state untouched), and a
failed one sets error to the server-provided detail, or a default when the
detail is absent or empty, while resolving with a failure flag instead of
throwing. -/
theorem c9_change_password_contract (c : ClientState) (d : Option String) :
    changePassword (.success ()) c = (c, true) ∧
    ((changePassword (.success ()) c).1.session.error = c.session.error ∨
      (changePassword (.success ()) c).1.session.error = none) ∧
    (changePassword (.failure d) c).1.session =
      { c.session with error := some (jsOrElse d "Password change failed") } ∧
    (changePassword (.failure d) c).2 = false :=
  ⟨rfl, Or.inl rfl, rfl, rfl⟩

/-- Claim C10: the multipart body of `chatAPI.sendMessage` contains a
`conversation_id` field exactly when `conversationId` is truthy, and with the
default `null` it contains the message field alone. -/
theorem c10_send_message_body (m : String) (cid : Option String) :
    ((sendMessageBody m cid).map Prod.fst).contains "conversation_id" =
      jsTruthy cid ∧
    sendMessageBody m none = [("message", m)] := by
  refine ⟨?_, rfl⟩
  rcases cid with _ | c
  · rfl
  · by_cases hc : c = ""
    · subst hc
      rfl
    · have ht : jsTruthy (some c) = true := by simp [jsTruthy, hc]
      have hb : sendMessageBody m (some c) =
          [("message", m), ("conversation_id", c)] := by
        simp [sendMessageBody, ht, jsInterp]
      rw [hb, ht]
      rfl

end AIChatBot
